import Mathlib

/-!
Shallow embedding of `src/telegram_media_bot.py` (a chat bot that resolves a
social-media URL into downloadable media and mediates the user's rendition
choice), together with theorems settling the specification claims.

External collaborators (the yt-dlp metadata query, HTTP page fetches, the
chat transport) are modelled as inputs: the query result, the parsed
structured-data block, and the scraped image-URL list are parameters, with
`none` standing for "the call raised".  Handlers return the new session
state together with the ordered list of transport actions they perform.
-/

/-- Python truthiness of an optional string: `None` and `""` are falsy. -/
def strTruthy : Option String → Bool
  | some s => s ≠ ""
  | none => false

/-- `matchesHere pat s`: the character list `pat` occurs at the head of `s`. -/
def matchesHere : List Char → List Char → Bool
  | [], _ => true
  | _ :: _, [] => false
  | a :: as, b :: bs => a == b && matchesHere as bs

/-- `listSub pat s`: `pat` occurs as a contiguous run somewhere in `s`
(Python `pat in s` on strings). -/
def listSub (pat : List Char) : List Char → Bool
  | [] => matchesHere pat []
  | c :: rest => matchesHere pat (c :: rest) || listSub pat rest

/-- Python `pat in s` for strings. -/
def strContains (s pat : String) : Bool := listSub pat.toList s.toList

/-- Python `s.endswith(pat)`. -/
def strEndsWith (s pat : String) : Bool :=
  matchesHere pat.toList.reverse s.toList.reverse

/-- Python `s.lower()`. -/
def strLower (s : String) : String := String.mk (s.toList.map Char.toLower)

/-- Python `str(x)` of an optional string: `None` renders as `"None"`
(as in an f-string interpolation of a possibly-missing title). -/
def pyStrOpt : Option String → String
  | some s => s
  | none => "None"

/-- `round(size / (1024*1024), 1)` scaled by 10, i.e. the number of tenths of
a megabyte, rounding half to even as Python's `round` does.  Modelled with
exact rational arithmetic over the naturals. -/
def pyRound10 (size : Nat) : Nat :=
  let n := size * 10
  let d := 1024 * 1024
  let q := n / d
  let r := n % d
  if 2 * r < d then q
  else if d < 2 * r then q + 1
  else if q % 2 = 0 then q else q + 1

/-- Rendering of the one-decimal float `m / 10` as Python's f-string does
(`15 ↦ "1.5"`, `20 ↦ "2.0"`). -/
def mbStr (m : Nat) : String := toString (m / 10) ++ "." ++ toString (m % 10)

/-- One rendition descriptor as reported by the metadata-extraction
collaborator (one element of `info["formats"]`). -/
structure Fmt where
  vcodec : Option String
  url : Option String
  filesize : Option Nat
  filesize_approx : Option Nat
  format_note : Option String
  height : Option Nat
deriving DecidableEq

/-- The metadata collaborator's successful result: `info` as used by
`extract_video_formats` (title, thumbnail, reported renditions). -/
structure YdlInfo where
  title : Option String
  thumbnail : Option String
  formats : List Fmt
deriving DecidableEq

/-- `size = f.get("filesize") or f.get("filesize_approx") or 0`. -/
def sizeOf' (f : Fmt) : Nat :=
  if f.filesize.getD 0 ≠ 0 then f.filesize.getD 0 else f.filesize_approx.getD 0

/-- `note = f.get("format_note") or f.get("height")`, rendered as the
f-string renders it (`None` when both are missing, the decimal digits when
the height number is used). -/
def noteOf (f : Fmt) : String :=
  if strTruthy f.format_note then f.format_note.getD ""
  else match f.height with
    | some h => toString h
    | none => "None"

/-- The label computed for one rendition:
`f"{note}p ({mb}MB)" if mb else f"{note}p"`, where `mb` is falsy when the
byte size is unknown (`size` falsy) or rounds to `0.0`. -/
def labelOf (f : Fmt) : String :=
  if sizeOf' f ≠ 0 ∧ pyRound10 (sizeOf' f) ≠ 0 then
    noteOf f ++ "p (" ++ mbStr (pyRound10 (sizeOf' f)) ++ "MB)"
  else
    noteOf f ++ "p"

/-- The filter `if f.get("vcodec") and f.get("url")`. -/
def keepFmt (f : Fmt) : Bool := strTruthy f.vcodec && strTruthy f.url

/-- The `for f in info.get("formats", [])` loop body accumulating
`(label, url)` pairs in reported order. -/
def formatsLoop : List Fmt → List (String × String)
  | [] => []
  | f :: rest =>
    if keepFmt f then (labelOf f, f.url.getD "") :: formatsLoop rest
    else formatsLoop rest

/-- The `MediaInfo` model class: normalized result of resolution. -/
structure MediaInfo where
  platform : String
  title : Option String
  formats : List (String × String)
  items : List (Option String)
  thumbnail : Option String
  caption : Option String
deriving DecidableEq

/-- Error conditions surfaced by the extractors: `authRequired` is the
`ValueError` raised with the login/cookies message, `other` any other
exception (network, regex, JSON parse). -/
inductive BotError where
  | authRequired (msg : String)
  | other
deriving DecidableEq

/-- The message of the `ValueError` raised when the metadata query errors. -/
def loginMsg : String := "This video cannot be downloaded without login/cookies."

/-- `extract_video_formats(url)`: the metadata query result is the input
(`none` when `ydl.extract_info` raised, which the code converts into the
login/cookies `ValueError`). -/
def extract_video_formats (q : Option YdlInfo) : Except BotError MediaInfo :=
  match q with
  | none => .error (.authRequired loginMsg)
  | some info =>
    .ok { platform := "video", title := info.title, formats := formatsLoop info.formats,
          items := [], thumbnail := info.thumbnail, caption := none }

/-- One child node of an `edge_sidecar_to_children` edge. -/
structure IgNode where
  video_url : Option String
  display_url : Option String
deriving DecidableEq

/-- The parsed `shortcode_media` JSON node of an Instagram post page. -/
structure IgMedia where
  typename : Option String
  accessibility_caption : Option String
  caption_texts : List String
  is_video : Bool
  children : List IgNode
  display_url : Option String
deriving DecidableEq

/-- `title = media.get("accessibility_caption") or "Instagram Media"`. -/
def igTitle (m : IgMedia) : String :=
  if strTruthy m.accessibility_caption then m.accessibility_caption.getD ""
  else "Instagram Media"

/-- Per-child locator choice:
`edge["node"].get("video_url") or edge["node"].get("display_url")`. -/
def igChildUrl (n : IgNode) : Option String :=
  if strTruthy n.video_url then n.video_url else n.display_url

/-- `instagram_metadata(url)`: the page fetch/regex/JSON-parse pipeline is the
input (`none` when any of those raised a non-ValueError exception); `q` is
the metadata query result used when the single post is a video. -/
def instagram_metadata (page : Option IgMedia) (q : Option YdlInfo) :
    Except BotError MediaInfo :=
  match page with
  | none => .error .other
  | some media =>
    if media.typename = some "GraphSidecar" then
      .ok { platform := "instagram", title := some (igTitle media), formats := [],
            items := media.children.map igChildUrl, thumbnail := none,
            caption := media.caption_texts.head? }
    else if media.is_video then
      extract_video_formats q
    else
      .ok { platform := "instagram", title := some (igTitle media), formats := [],
            items := [media.display_url], thumbnail := none,
            caption := media.caption_texts.head? }

/-- `facebook_metadata(url)`: first `extract_video_formats`; when that yields
no selectable formats, fall back to the mbasic-mirror scrape, whose matched
image URLs are the input `scraped` (`none` when the fetch raised). -/
def facebook_metadata (q : Option YdlInfo) (scraped : Option (List String)) :
    Except BotError MediaInfo :=
  match extract_video_formats q with
  | .error e => .error e
  | .ok info =>
    if info.formats ≠ [] then .ok info
    else
      match scraped with
      | none => .error .other
      | some urls =>
        .ok { platform := "facebook", title := some "Facebook Photos", formats := [],
              items := urls.map some, thumbnail := none, caption := none }

/-- The `user_state` mapping, chat id to pending `MediaInfo`. -/
def BotState := List (Nat × MediaInfo)

/-- `user_state.get(chat_id)`. -/
def lookupState : BotState → Nat → Option MediaInfo
  | [], _ => none
  | (k, v) :: rest, c => if k = c then some v else lookupState rest c

/-- `user_state.pop(chat_id, None)` (the resulting mapping). -/
def eraseState : BotState → Nat → BotState
  | [], _ => []
  | (k, v) :: rest, c => if k = c then eraseState rest c else (k, v) :: eraseState rest c

/-- `user_state[chat_id] = info`. -/
def insertState (st : BotState) (c : Nat) (v : MediaInfo) : BotState :=
  (c, v) :: eraseState st c

/-- One member of a grouped album: `InputMediaVideo` or `InputMediaPhoto`. -/
inductive GItem where
  | video (u : String)
  | photo (u : String)
deriving DecidableEq

/-- Observable chat-transport actions a handler performs, in order. -/
inductive Act where
  | replyText (msg : String)
  | sendMediaGroup (g : List GItem)
  | sendVideoA (u : String)
  | sendPhotoA (u : String)
  | sendMessage (msg : String)
  | replyMarkdown (text : String) (buttons : List String)
  | answerQuery
  | editMessage (msg : String)
  | sendAudio (u : String)
deriving DecidableEq

/-- `InputMediaVideo(m) if m.endswith(".mp4") else InputMediaPhoto(m)`;
a `None` item raises (`NoneType` has no `endswith`), modelled as `.error`. -/
def groupItem : Option String → Except Unit GItem
  | none => .error ()
  | some s => .ok (if strEndsWith s ".mp4" then .video s else .photo s)

/-- The media-group list comprehension over `info.items`. -/
def groupItems : List (Option String) → Except Unit (List GItem)
  | [] => .ok []
  | m :: rest => do
    let g ← groupItem m
    let gs ← groupItems rest
    pure (g :: gs)

/-- `if info.caption: send_message(chat_id, info.caption)`. -/
def captionActs (info : MediaInfo) : List Act :=
  if strTruthy info.caption then [.sendMessage (info.caption.getD "")] else []

/-- Results of the external calls a single `handle_message` invocation may
make: the metadata query, the Instagram page parse, the Facebook scrape. -/
structure Env where
  ydl : Option YdlInfo
  igPage : Option IgMedia
  fbScrape : Option (List String)

/-- The user-visible reply for each extractor error: `str(e)` for the
`ValueError`, the generic message for anything else. -/
def errMsg : BotError → String
  | .authRequired m => m
  | .other => "Failed to fetch media."

/-- The platform dispatch of `handle_message`: substring checks in priority
order, `none` when no marker matches. -/
def resolve (env : Env) (url : String) : Option (Except BotError MediaInfo) :=
  if strContains url "youtu" then some (extract_video_formats env.ydl)
  else if strContains url "instagram.com" then some (instagram_metadata env.igPage env.ydl)
  else if strContains url "facebook.com" then some (facebook_metadata env.ydl env.fbScrape)
  else none

/-- The quality-selection prompt issued for a stored descriptor. -/
def selectPrompt (info : MediaInfo) : Act :=
  .replyMarkdown ("*" ++ pyStrOpt info.title ++ "*\nSelect quality:")
    (info.formats.map Prod.fst)

/-- `handle_message`: dispatch, error replies, direct delivery of items, or
storing the descriptor and prompting for a format choice.  The result is the
new `user_state` and the actions performed; `.error ()` is an exception
escaping the handler (a `None` item outside the `try` block). -/
def handle_message (env : Env) (st : BotState) (chat_id : Nat) (url : String) :
    Except Unit (BotState × List Act) :=
  match resolve env url with
  | none => .ok (st, [.replyText "Invalid link."])
  | some (.error e) => .ok (st, [.replyText (errMsg e)])
  | some (.ok info) =>
    match info.items with
    | [] =>
      .ok (insertState st chat_id info, [selectPrompt info])
    | [m] =>
      match groupItem m with
      | .error _ => .error ()
      | .ok (.video u) => .ok (st, .sendVideoA u :: captionActs info)
      | .ok (.photo u) => .ok (st, .sendPhotoA u :: captionActs info)
    | _ :: _ :: _ =>
      match groupItems info.items with
      | .error _ => .error ()
      | .ok g => .ok (st, .sendMediaGroup g :: captionActs info)

/-- `button_callback`: answer the query, look up the pending descriptor
(expired when absent), send the first matching rendition, clear the entry. -/
def button_callback (st : BotState) (chat_id : Nat) (choice : String) :
    BotState × List Act :=
  match lookupState st chat_id with
  | none => (st, [.answerQuery, .editMessage "Session expired."])
  | some info =>
    let acts :=
      match info.formats.find? (fun p => p.1 == choice) with
      | none => []
      | some (label, media_url) =>
        Act.editMessage ("Downloading *" ++ choice ++ "*...") ::
        (if strEndsWith media_url ".mp3" || strContains (strLower label) "audio" then
          [Act.sendAudio media_url]
        else
          [Act.sendVideoA media_url])
    (eraseState st chat_id, .answerQuery :: acts)

/-! ## Helper lemmas -/

/-- The rendition loop is the filter of kept renditions mapped to
`(label, url)` pairs, preserving the reported order. -/
theorem formatsLoop_eq (l : List Fmt) :
    formatsLoop l = (l.filter keepFmt).map (fun f => (labelOf f, f.url.getD "")) := by
  induction l with
  | nil => rfl
  | cons f rest ih =>
    cases h : keepFmt f <;> simp [formatsLoop, List.filter_cons, h, ih]

/-- A successful `extract_video_formats` result always has empty `items`. -/
theorem extract_items_nil (q : Option YdlInfo) (info : MediaInfo)
    (h : extract_video_formats q = Except.ok info) : info.items = [] := by
  cases q with
  | none => simp [extract_video_formats] at h
  | some i =>
    simp only [extract_video_formats, Except.ok.injEq] at h
    rw [← h]

/-- Removing a key makes its lookup miss. -/
theorem lookupState_eraseState (st : BotState) (c : Nat) :
    lookupState (eraseState st c) c = none := by
  induction st with
  | nil => rfl
  | cons kv rest ih =>
    obtain ⟨k, v⟩ := kv
    by_cases h : k = c
    · simp [eraseState, h, ih]
    · simp [eraseState, lookupState, h, ih]

/-- Substring occurrence is preserved by prepending characters. -/
theorem listSub_append (pat a b : List Char) (h : listSub pat b = true) :
    listSub pat (a ++ b) = true := by
  induction a with
  | nil => simpa using h
  | cons c rest ih => simp [listSub, ih]

/-- The spec's exclusivity invariant on a descriptor: selectable
(`formats` non-empty, `items` empty) or direct (`items` non-empty,
`formats` empty). -/
def exclusiveMode (info : MediaInfo) : Prop :=
  (info.formats ≠ [] ∧ info.items = []) ∨ (info.items ≠ [] ∧ info.formats = [])

/-- The empty direct-mode descriptor the Facebook fallback produces when the
scrape matches nothing. -/
def fbEmpty : MediaInfo :=
  { platform := "facebook", title := some "Facebook Photos", formats := [],
    items := [], thumbnail := none, caption := none }

/-! ## Claims -/

/-- Claim C1, counterexample: `facebook_metadata` on a query result with no
renditions and a scrape matching no image URLs returns a descriptor whose
`formats` and `items` are both empty, so the exactly-one-mode invariant
fails on a reachable descriptor. -/
theorem C1_counterexample :
    facebook_metadata (some { title := none, thumbnail := none, formats := [] }) (some []) =
      Except.ok fbEmpty ∧ ¬ exclusiveMode fbEmpty := by
  refine ⟨rfl, ?_⟩
  intro h
  rcases h with ⟨h1, _⟩ | ⟨h1, _⟩ <;> exact h1 rfl

/-- Claim C1, amended: no extractor ever produces a descriptor with both
`formats` and `items` non-empty; at least one of the two lists is always
empty (a descriptor with both empty is, however, reachable). -/
theorem C1_amended (q : Option YdlInfo) (p : Option IgMedia) (s : Option (List String))
    (info : MediaInfo)
    (h : extract_video_formats q = Except.ok info ∨
         instagram_metadata p q = Except.ok info ∨
         facebook_metadata q s = Except.ok info) :
    info.formats = [] ∨ info.items = [] := by
  rcases h with h | h | h
  · exact Or.inr (extract_items_nil q info h)
  · cases p with
    | none => simp [instagram_metadata] at h
    | some media =>
      by_cases hty : media.typename = some "GraphSidecar"
      · simp only [instagram_metadata, if_pos hty, Except.ok.injEq] at h
        rw [← h]
        exact Or.inl rfl
      · by_cases hv : media.is_video = true
        · simp only [instagram_metadata, if_neg hty, hv, if_pos] at h
          exact Or.inr (extract_items_nil q info h)
        · simp only [instagram_metadata, if_neg hty, hv, Bool.false_eq_true, if_neg,
            if_false, Except.ok.injEq] at h
          rw [← h]
          exact Or.inl rfl
  · unfold facebook_metadata at h
    cases hq : extract_video_formats q with
    | error e => rw [hq] at h; simp at h
    | ok i =>
      rw [hq] at h
      by_cases hf : i.formats ≠ []
      · simp only [if_pos hf, Except.ok.injEq] at h
        rw [← h]
        exact Or.inr (extract_items_nil q i hq)
      · simp only [if_neg hf] at h
        cases s with
        | none => simp at h
        | some urls =>
          simp only [Except.ok.injEq] at h
          rw [← h]
          exact Or.inl rfl

/-- Claim C1 amended, witness at a concrete input: the format extractor on a
query result with no renditions. -/
theorem C1_amended_witness :
    (({ platform := "video", title := none, formats := [], items := [],
        thumbnail := none, caption := none } : MediaInfo).formats = [] ∨
     ({ platform := "video", title := none, formats := [], items := [],
        thumbnail := none, caption := none } : MediaInfo).items = []) :=
  C1_amended (some { title := none, thumbnail := none, formats := [] }) none none _
    (Or.inl rfl)

/-- Claim C2: a URL containing none of the markers `youtu`, `instagram.com`,
`facebook.com` gets the "Invalid link." reply with the session state
untouched, independently of every collaborator result (so no extractor is
consulted); and dispatch is by substring match in that priority order. -/
theorem C2_unsupported_dispatch (env : Env) (st : BotState) (c : Nat) (url : String)
    (h1 : strContains url "youtu" = false)
    (h2 : strContains url "instagram.com" = false)
    (h3 : strContains url "facebook.com" = false) :
    handle_message env st c url = Except.ok (st, [Act.replyText "Invalid link."]) ∧
    resolve env url = none ∧
    (∀ u, strContains u "youtu" = true →
      resolve env u = some (extract_video_formats env.ydl)) ∧
    (∀ u, strContains u "youtu" = false → strContains u "instagram.com" = true →
      resolve env u = some (instagram_metadata env.igPage env.ydl)) ∧
    (∀ u, strContains u "youtu" = false → strContains u "instagram.com" = false →
      strContains u "facebook.com" = true →
      resolve env u = some (facebook_metadata env.ydl env.fbScrape)) := by
  refine ⟨?_, ?_, ?_, ?_, ?_⟩
  · simp [handle_message, resolve, h1, h2, h3]
  · simp [resolve, h1, h2, h3]
  · intro u hu
    simp [resolve, hu]
  · intro u hu1 hu2
    simp [resolve, hu1, hu2]
  · intro u hu1 hu2 hu3
    simp [resolve, hu1, hu2, hu3]

/-- Claim C2, witness: an unrelated URL gets the invalid-link reply with the
state unchanged. -/
theorem C2_witness :
    handle_message ⟨none, none, none⟩ [] 1 "http://example.com/x" =
      Except.ok ([], [Act.replyText "Invalid link."]) :=
  (C2_unsupported_dispatch ⟨none, none, none⟩ [] 1 "http://example.com/x"
    (by decide) (by decide) (by decide)).1

/-- Claim C3, counterexample: on a Facebook URL where the primary extraction
yields zero renditions and the lite-mirror scrape matches zero image URLs,
resolution does not fail — it returns the empty-but-valid descriptor and the
handler stores it and issues a quality prompt with no buttons, instead of the
generic failure reply. -/
theorem C3_counterexample :
    facebook_metadata (some { title := some "t", thumbnail := none, formats := [] })
        (some []) = Except.ok fbEmpty ∧
    handle_message ⟨some { title := some "t", thumbnail := none, formats := [] }, none,
        some []⟩ [] 7 "https://www.facebook.com/photo/x" =
      Except.ok ([(7, fbEmpty)],
        [Act.replyMarkdown "*Facebook Photos*\nSelect quality:" []]) := by
  exact ⟨rfl, rfl⟩

/-- Claim C3, amended: when the primary extraction keeps zero renditions and
the scrape matches zero image URLs, `facebook_metadata` succeeds with the
descriptor whose `formats` and `items` are both empty (no failure is
raised). -/
theorem C3_amended (q : YdlInfo) (h : formatsLoop q.formats = []) :
    facebook_metadata (some q) (some []) = Except.ok fbEmpty := by
  simp [facebook_metadata, extract_video_formats, h, fbEmpty]

/-- Claim C3 amended, witness at a concrete input. -/
theorem C3_amended_witness :
    facebook_metadata (some { title := none, thumbnail := none, formats := [] })
      (some []) = Except.ok fbEmpty :=
  C3_amended { title := none, thumbnail := none, formats := [] } rfl

/-- Claim C4, counterexample: a rendition with a known byte size of 1 gets the
label `360p` with no size segment, because the computed megabyte value rounds
to `0.0`, which is falsy, so a known byte size does not always yield a size
segment. -/
theorem C4_counterexample :
    sizeOf' { vcodec := some "avc1", url := some "u", filesize := some 1,
              filesize_approx := none, format_note := some "360", height := none } = 1 ∧
    labelOf { vcodec := some "avc1", url := some "u", filesize := some 1,
              filesize_approx := none, format_note := some "360", height := none } = "360p" ∧
    strContains "360p" "MB" = false := by
  refine ⟨rfl, rfl, by decide⟩

/-- Claim C4, amended: a reported byte size of 1,572,864 yields a label
containing the segment `1.5MB`; a known byte size whose one-decimal megabyte
rounding is non-zero yields a label with the size segment; an unknown byte
size (and likewise one rounding to `0.0` MB) yields a label with no size
segment. -/
theorem C4_amended (f : Fmt) :
    (sizeOf' f = 1572864 → strContains (labelOf f) "1.5MB" = true) ∧
    (sizeOf' f ≠ 0 → pyRound10 (sizeOf' f) ≠ 0 →
      labelOf f = noteOf f ++ "p (" ++ mbStr (pyRound10 (sizeOf' f)) ++ "MB)") ∧
    (sizeOf' f = 0 → labelOf f = noteOf f ++ "p") := by
  refine ⟨?_, ?_, ?_⟩
  · intro h
    have hc : sizeOf' f ≠ 0 ∧ pyRound10 (sizeOf' f) ≠ 0 := by rw [h]; decide
    have hl : labelOf f = noteOf f ++ "p (" ++ mbStr (pyRound10 (sizeOf' f)) ++ "MB)" := by
      simp [labelOf, hc.1, hc.2]
    rw [h] at hl
    have hm : mbStr (pyRound10 1572864) = "1.5" := by decide
    have hl2 : labelOf f = noteOf f ++ "p (" ++ "1.5" ++ "MB)" := by rw [hl, hm]
    show listSub "1.5MB".toList (labelOf f).toList = true
    rw [hl2]
    have hsplit : (noteOf f ++ "p (" ++ "1.5" ++ "MB)").toList =
        (noteOf f).toList ++ ("p (".toList ++ ("1.5".toList ++ "MB)".toList)) := by
      simp [String.toList]
    rw [hsplit]
    exact listSub_append _ _ _ (by decide)
  · intro h1 h2
    simp [labelOf, h1, h2]
  · intro h
    simp [labelOf, h]

/-- Claim C4 amended, witness: the 1,572,864-byte rendition's label contains
`1.5MB`. -/
theorem C4_amended_witness :
    strContains
      (labelOf { vcodec := some "avc1", url := some "u", filesize := some 1572864,
                 filesize_approx := none, format_note := some "720", height := none })
      "1.5MB" = true :=
  (C4_amended _).1 rfl

/-- Claim C5: on a successful metadata query, the format extractor's output
is exactly the reported renditions that pass the codec-and-locator filter,
mapped one-to-one to `(label, url)` pairs in the reported order, with title
and thumbnail passed through unchanged and no direct items. -/
theorem C5_format_extraction (q : YdlInfo) :
    extract_video_formats (some q) =
      Except.ok { platform := "video", title := q.title,
                  formats := (q.formats.filter keepFmt).map
                    (fun f => (labelOf f, f.url.getD "")),
                  items := [], thumbnail := q.thumbnail, caption := none } := by
  simp [extract_video_formats, formatsLoop_eq]

/-- Claim C6: whenever the metadata query errors, the handler replies with
the login/cookies access-restriction message — on the video path, on the
Instagram single-video path, and on the Facebook path — and that message
differs from the generic "Failed to fetch media." reply. -/
theorem C6_auth_required (env : Env) (st : BotState) (c : Nat) (url : String)
    (hq : env.ydl = none) :
    (strContains url "youtu" = true →
      handle_message env st c url = Except.ok (st, [Act.replyText loginMsg])) ∧
    (strContains url "youtu" = false → strContains url "instagram.com" = true →
      ∀ m, env.igPage = some m → m.typename ≠ some "GraphSidecar" → m.is_video = true →
      handle_message env st c url = Except.ok (st, [Act.replyText loginMsg])) ∧
    (strContains url "youtu" = false → strContains url "instagram.com" = false →
      strContains url "facebook.com" = true →
      handle_message env st c url = Except.ok (st, [Act.replyText loginMsg])) ∧
    loginMsg ≠ "Failed to fetch media." := by
  refine ⟨?_, ?_, ?_, by decide⟩
  · intro h1
    simp [handle_message, resolve, h1, hq, extract_video_formats, errMsg]
  · intro h1 h2 m hm hty hv
    simp [handle_message, resolve, h1, h2, hq, hm, instagram_metadata, hty, hv,
      extract_video_formats, errMsg]
  · intro h1 h2 h3
    simp [handle_message, resolve, h1, h2, h3, hq, facebook_metadata,
      extract_video_formats, errMsg]

/-- Claim C6, witness: a YouTube URL whose metadata query errors gets the
access-restriction reply. -/
theorem C6_witness :
    handle_message ⟨none, none, none⟩ [] 1 "https://youtu.be/a" =
      Except.ok ([], [Act.replyText loginMsg]) :=
  (C6_auth_required ⟨none, none, none⟩ [] 1 "https://youtu.be/a" rfl).1 (by decide)

/-- Claim C7: for a multi-item (GraphSidecar) payload, the resulting items
list has exactly one locator per source child, in the source's child order,
and for each child the embedded video locator is chosen when present
(non-empty) and the still-image locator otherwise. -/
theorem C7_carousel_order (m : IgMedia) (q : Option YdlInfo) (info : MediaInfo)
    (hty : m.typename = some "GraphSidecar")
    (hok : instagram_metadata (some m) q = Except.ok info) :
    info.items.length = m.children.length ∧
    ∀ (i : Nat) (n : IgNode), m.children[i]? = some n →
      info.items[i]? =
        some (if strTruthy n.video_url then n.video_url else n.display_url) := by
  simp only [instagram_metadata, if_pos hty, Except.ok.injEq] at hok
  have hitems : info.items = m.children.map igChildUrl := by rw [← hok]
  constructor
  · rw [hitems]
    exact List.length_map m.children igChildUrl
  · intro i n hn
    rw [hitems, List.getElem?_map, hn]
    rfl

/-- A concrete two-child carousel payload: first child has an embedded video
locator, second only a still image. -/
def mC7 : IgMedia :=
  { typename := some "GraphSidecar", accessibility_caption := none, caption_texts := [],
    is_video := false,
    children := [⟨some "v.mp4", some "d1.jpg"⟩, ⟨none, some "d2.jpg"⟩],
    display_url := none }

/-- The descriptor the carousel extractor produces for `mC7`. -/
def infoC7 : MediaInfo :=
  { platform := "instagram", title := some "Instagram Media", formats := [],
    items := [some "v.mp4", some "d2.jpg"], thumbnail := none, caption := none }

/-- Claim C7, witness: on the concrete two-child carousel, one item per child
in order, the video locator for the first child and the image locator for the
second. -/
theorem C7_witness :
    infoC7.items.length = mC7.children.length ∧
    infoC7.items[0]? = some (some "v.mp4") ∧
    infoC7.items[1]? = some (some "d2.jpg") := by
  have h := C7_carousel_order mC7 none infoC7 rfl rfl
  refine ⟨h.1, ?_, ?_⟩
  · have h0 := h.2 0 ⟨some "v.mp4", some "d1.jpg"⟩ rfl
    simpa [strTruthy] using h0
  · have h1 := h.2 1 ⟨none, some "d2.jpg"⟩ rfl
    simpa [strTruthy] using h1

/-- An action that transmits media to the conversation. -/
def isMediaSend : Act → Bool
  | .sendMediaGroup _ => true
  | .sendVideoA _ => true
  | .sendPhotoA _ => true
  | .sendAudio _ => true
  | _ => false

/-- Claim C8: a selection event for a conversation with no stored descriptor
answers the query, edits the message to "Session expired.", leaves the state
unchanged, and performs no media send; the handler is a total function, so
no exception is raised. -/
theorem C8_session_expired (st : BotState) (c : Nat) (choice : String)
    (h : lookupState st c = none) :
    button_callback st c choice =
      (st, [Act.answerQuery, Act.editMessage "Session expired."]) ∧
    ∀ a ∈ (button_callback st c choice).2, isMediaSend a = false := by
  have hb : button_callback st c choice =
      (st, [Act.answerQuery, Act.editMessage "Session expired."]) := by
    simp [button_callback, h]
  refine ⟨hb, ?_⟩
  rw [hb]
  intro a ha
  simp only [List.mem_cons, List.not_mem_nil, or_false] at ha
  rcases ha with rfl | rfl <;> rfl

/-- Claim C8, witness: an empty session store. -/
theorem C8_witness :
    button_callback [] 5 "x" = ([], [Act.answerQuery, Act.editMessage "Session expired."]) :=
  (C8_session_expired [] 5 "x" rfl).1

/-- Claim C9: once a choice event is processed against an existing session
entry, the entry is removed whether or not the label matched, and when no
stored format label matches the choice, no message edit and no media send
happens (only the query acknowledgement). -/
theorem C9_choice_consumes (st : BotState) (c : Nat) (choice : String) (info : MediaInfo)
    (h : lookupState st c = some info) :
    lookupState (button_callback st c choice).1 c = none ∧
    (info.formats.find? (fun p => p.1 == choice) = none →
      (button_callback st c choice).2 = [Act.answerQuery]) := by
  constructor
  · simp only [button_callback, h]
    exact lookupState_eraseState st c
  · intro hf
    simp [button_callback, h, hf]

/-- A stored selectable descriptor with a single 720p rendition. -/
def infoC9 : MediaInfo :=
  { platform := "video", title := some "T", formats := [("720p", "http://v/u.bin")],
    items := [], thumbnail := none, caption := none }

/-- Claim C9, witness: a choice that matches no stored label clears the entry
and sends nothing. -/
theorem C9_witness :
    lookupState (button_callback [(3, infoC9)] 3 "1080p").1 3 = none ∧
    (button_callback [(3, infoC9)] 3 "1080p").2 = [Act.answerQuery] := by
  have h := C9_choice_consumes [(3, infoC9)] 3 "1080p" infoC9 rfl
  exact ⟨h.1, h.2 rfl⟩

/-- Claim C10, counterexample: a successful Facebook resolution with zero
renditions and zero scraped images writes a descriptor with empty `formats`
into the session store, so the store is not written only for selectable
descriptors. -/
theorem C10_counterexample :
    handle_message ⟨some { title := none, thumbnail := none, formats := [] }, none, some []⟩
        [] 2 "https://m.facebook.com/p" =
      Except.ok ([(2, fbEmpty)], [selectPrompt fbEmpty]) ∧
    lookupState [(2, fbEmpty)] 2 = some fbEmpty ∧
    fbEmpty.formats = [] := by
  exact ⟨rfl, rfl, rfl⟩

/-- Claim C10, amended: a resolution error leaves the session store unchanged
(only the error reply is sent), and the store changes only when resolution
succeeds with a descriptor whose `items` list is empty — in which case the
new state is exactly the old one with that descriptor inserted for the
conversation. -/
theorem C10_amended (env : Env) (st : BotState) (c : Nat) (url : String) :
    (∀ e, resolve env url = some (Except.error e) →
      handle_message env st c url = Except.ok (st, [Act.replyText (errMsg e)])) ∧
    (∀ st2 acts, handle_message env st c url = Except.ok (st2, acts) → st2 ≠ st →
      ∃ info, resolve env url = some (Except.ok info) ∧ info.items = [] ∧
        st2 = insertState st c info) := by
  constructor
  · intro e he
    simp [handle_message, he]
  · intro st2 acts hh hne
    unfold handle_message at hh
    cases hres : resolve env url with
    | none =>
      rw [hres] at hh
      simp only [Except.ok.injEq, Prod.mk.injEq] at hh
      exact absurd hh.1.symm hne
    | some r =>
      cases r with
      | error e =>
        rw [hres] at hh
        simp only [Except.ok.injEq, Prod.mk.injEq] at hh
        exact absurd hh.1.symm hne
      | ok info =>
        rw [hres] at hh
        cases hitems : info.items with
        | nil =>
          simp only [hitems, Except.ok.injEq, Prod.mk.injEq] at hh
          exact ⟨info, rfl, hitems, hh.1.symm⟩
        | cons m rest =>
          cases rest with
          | nil =>
            cases hg : groupItem m with
            | error u => simp [hitems, hg] at hh
            | ok g =>
              cases g with
              | video u =>
                simp only [hitems, hg, Except.ok.injEq, Prod.mk.injEq] at hh
                exact absurd hh.1.symm hne
              | photo u =>
                simp only [hitems, hg, Except.ok.injEq, Prod.mk.injEq] at hh
                exact absurd hh.1.symm hne
          | cons m2 rest2 =>
            cases hg : groupItems (m :: m2 :: rest2) with
            | error u => simp [hitems, hg] at hh
            | ok g =>
              simp only [hitems, hg, Except.ok.injEq, Prod.mk.injEq] at hh
              exact absurd hh.1.symm hne

/-- Claim C10 amended, witness: a failed resolution (metadata query error on
a video URL) leaves the empty store empty and only replies with the error
message. -/
theorem C10_amended_witness :
    handle_message ⟨none, none, none⟩ [] 1 "youtu.be/a" =
      Except.ok ([], [Act.replyText (errMsg (BotError.authRequired loginMsg))]) :=
  (C10_amended ⟨none, none, none⟩ [] 1 "youtu.be/a").1 (BotError.authRequired loginMsg) rfl
